import Mathlib

/-!
Shallow embedding of the authentication / RBAC service
(`fast_api_auth_service`).  Times (`datetime` values) are modelled as
integers counting minutes in UTC, so that `timedelta(minutes=m)` becomes
the integer `m`.  Document ids (`ObjectId` values, stored and passed
around as strings in the source) are modelled as `String`.  The Mongo
collections become Lean lists; `find_one` is `List.find?` (first match
in collection order) and `update_one({_id: uid}, {$set: ...})` is a
pointwise map guarded by the id (the `_id` field is the primary key, so
at most one document matches).  `ObjectId.is_valid` guards are not
modelled: every stored `_id` is a valid ObjectId, so dropping invalid
ids from a query can never change which documents are returned.
-/

namespace AuthService

/-- Model of `app/models/user.py` (`UserDBModel`).  The fields
`email_verified_at` / `password_changed_at` appear in the
`UserDBModel` variant of `app/schemas/user.py` and are read and written
by the service layer, so they are included here. -/
structure UserDBModel where
  id : String
  username : String
  email : String
  hashed_password : String
  full_name : Option String := none
  address : Option String := none
  phone_number : Option String := none
  is_active : Bool := true
  is_superuser : Bool := false
  created_at : Int
  updated_at : Int
  last_login_at : Option Int := none
  failed_login_attempts : Nat := 0
  lockout_until : Option Int := none
  role_ids : List String := []
  email_verified_at : Option Int := none
  password_changed_at : Option Int := none
deriving DecidableEq, Repr

/-- Model of `app/models/role.py` (`RoleDBModel`). -/
structure RoleDBModel where
  id : String
  name : String
  description : Option String := none
  permission_ids : List String := []
  created_at : Int
  updated_at : Int
deriving DecidableEq, Repr

/-- Model of `app/models/permission.py` (`PermissionDBModel`). -/
structure PermissionDBModel where
  id : String
  name : String
  description : Option String := none
  created_at : Int
  updated_at : Int
deriving DecidableEq, Repr

deriving instance DecidableEq for Except

/-- The three MongoDB collections used by the repositories
(`db["users"]`, `db["roles"]`, `db["permissions"]`). -/
structure Store where
  users : List UserDBModel
  roles : List RoleDBModel
  permissions : List PermissionDBModel
deriving DecidableEq, Repr

/-- Model of `app/core/config.py` (`Settings`): the fields consumed by the
modelled code paths, with the defaults from the source.  `SECRET_KEY`
is required (no default) in the source. -/
structure Settings where
  SECRET_KEY : String
  ACCESS_TOKEN_EXPIRE_MINUTES : Int := 30
  REFRESH_TOKEN_EXPIRE_MINUTES : Int := 60 * 24 * 7
  MAX_FAILED_LOGIN_ATTEMPTS : Nat := 5
  LOCKOUT_DURATION_MINUTES : Int := 15
  RESET_PASSWORD_TOKEN_EXPIRE_MINUTES : Int := 15
  EMAIL_VERIFICATION_TOKEN_EXPIRE_MINUTES : Int := 60
deriving DecidableEq, Repr

/-- Model of `app/schemas/user.py` (`UserInResponse`): the fields the modelled
code paths read (`roles` / `permissions` are the populated name
lists). -/
structure UserInResponse where
  id : String
  username : String
  email : String
  is_active : Bool
  is_superuser : Bool
  roles : List String := []
  permissions : List String := []
deriving DecidableEq, Repr

/-- Model of `app/schemas/user.py` (`MessageResponse`). -/
structure MessageResponse where
  message : String
deriving DecidableEq, Repr

/-! ## Repository layer: `app/repository/user.py`, `role.py`, `permission.py` -/

/-- Model of `app/repository/user.py::get_user_by_id`:
`find_one({"_id": ObjectId(user_id)})`. -/
def get_user_by_id (user_id : String) (store : Store) : Option UserDBModel :=
  store.users.find? (fun u => u.id == user_id)

/-- Model of `app/repository/user.py::get_user_by_username`:
`find_one({"username": username})`. -/
def get_user_by_username (username : String) (store : Store) : Option UserDBModel :=
  store.users.find? (fun u => u.username == username)

/-- Model of `app/repository/user.py::get_user_by_email`:
`find_one({"email": email})`. -/
def get_user_by_email (email : String) (store : Store) : Option UserDBModel :=
  store.users.find? (fun u => u.email == email)

/-- Shared shape of `users_collection.update_one({"_id": ObjectId(user_id)}, ...)`:
rewrite the (unique) user whose `_id` matches, leave everything else. -/
def update_users_matching (user_id : String) (f : UserDBModel → UserDBModel)
    (store : Store) : Store :=
  { store with users := store.users.map (fun u => if u.id == user_id then f u else u) }

/-- Model of `app/repository/user.py::update_user_db`: `$set` of the caller's
`update_data` (modelled as the record update `upd`) after the
repository stamps `update_data["updated_at"] = datetime.now(utc)`. -/
def update_user_db (now : Int) (upd : UserDBModel → UserDBModel)
    (user_id : String) (store : Store) : Store :=
  update_users_matching user_id (fun u => { upd u with updated_at := now }) store

/-- Model of `app/repository/user.py::update_last_login_at`:
`$set {"last_login_at": datetime.now(utc)}`. -/
def update_last_login_at (now : Int) (user_id : String) (store : Store) : Store :=
  update_users_matching user_id (fun u => { u with last_login_at := some now }) store

/-- Model of `app/repository/user.py::increment_failed_login_attempts`:
`$inc {"failed_login_attempts": 1}`. -/
def increment_failed_login_attempts (user_id : String) (store : Store) : Store :=
  update_users_matching user_id
    (fun u => { u with failed_login_attempts := u.failed_login_attempts + 1 }) store

/-- Model of `app/repository/user.py::set_user_lockout`:
`$set {"lockout_until": lockout_until}`. -/
def set_user_lockout (user_id : String) (lockout_until : Int) (store : Store) : Store :=
  update_users_matching user_id (fun u => { u with lockout_until := some lockout_until }) store

/-- Model of `app/repository/user.py::clear_user_lockout_and_attempts`:
`$set {"lockout_until": None, "failed_login_attempts": 0}`. -/
def clear_user_lockout_and_attempts (user_id : String) (store : Store) : Store :=
  update_users_matching user_id
    (fun u => { u with lockout_until := none, failed_login_attempts := 0 }) store

/-- Model of `app/repository/role.py::get_role_by_id`. -/
def get_role_by_id (role_id : String) (store : Store) : Option RoleDBModel :=
  store.roles.find? (fun r => r.id == role_id)

/-- Model of `app/repository/role.py::get_roles_by_ids`:
`find({"_id": {"$in": obj_ids}})` — the stored roles (in collection
order) whose id appears in the query list; ids that match no stored
role are silently dropped by the query. -/
def get_roles_by_ids (role_ids : List String) (store : Store) : List RoleDBModel :=
  store.roles.filter (fun r => role_ids.contains r.id)

/-- Model of `app/repository/permission.py::get_permissions_by_ids`. -/
def get_permissions_by_ids (permission_ids : List String) (store : Store) :
    List PermissionDBModel :=
  store.permissions.filter (fun p => permission_ids.contains p.id)

/-- Model of `app/repository/role.py::delete_role_db`:
`delete_one({"_id": ObjectId(role_id)})`; returns `deleted_count > 0`. -/
def delete_role_db (role_id : String) (store : Store) : Bool × Store :=
  let remaining := store.roles.filter (fun r => !(r.id == role_id))
  (decide (remaining.length < store.roles.length), { store with roles := remaining })

/-- Model of `app/repository/role.py::find_users_with_role`:
`users.find_one({"role_ids": role_id}) is not None` — a Mongo array
query matching any user whose `role_ids` array contains `role_id`. -/
def find_users_with_role (role_id : String) (store : Store) : Bool :=
  store.users.any (fun u => u.role_ids.contains role_id)

/-! ## Service layer: permission resolution and the gate -/

/-- Model of `app/services/user_service.py::UserService._get_populated_user_response`:
fetch the roles referenced by `role_ids`, collect (`extend`) every
`permission_ids` entry, deduplicate (`list(set(...))` — the Python set
order is unspecified; `List.dedup` fixes one order, and every claim
about this function is order-insensitive), fetch those permissions and
project both fetches to names. -/
def get_populated_user_response (store : Store) (user_db_model : UserDBModel) :
    UserInResponse :=
  let roles_db_models :=
    if user_db_model.role_ids.isEmpty then []
    else get_roles_by_ids user_db_model.role_ids store
  let all_permission_ids := roles_db_models.foldl (fun acc r => acc ++ r.permission_ids) []
  let permissions_db_models :=
    if all_permission_ids.isEmpty then []
    else get_permissions_by_ids all_permission_ids.dedup store
  { id := user_db_model.id
    username := user_db_model.username
    email := user_db_model.email
    is_active := user_db_model.is_active
    is_superuser := user_db_model.is_superuser
    roles := roles_db_models.map (fun r => r.name)
    permissions := permissions_db_models.map (fun p => p.name) }

/-- Error raised by the authorization gate (HTTP 403). -/
inductive GateError where
  | forbidden
deriving DecidableEq, Repr

/-- Model of `app/dependencies.py::requires_permission` (the inner
`permission_checker`): reject iff the permission name is absent from
the populated permission list and the caller is not a superuser. -/
def requires_permission (permission_name : String) (current_user : UserInResponse) :
    Except GateError UserInResponse :=
  if !(current_user.permissions.contains permission_name) && !current_user.is_superuser then
    .error .forbidden
  else
    .ok current_user

/-! ## Service layer: role deletion (`app/services/role_service.py`) -/

/-- Errors raised by `RoleService.delete_role`. -/
inductive RoleDeleteError where
  | notFound      -- 404
  | conflict      -- 409, role still referenced by some user
  | internalError -- 500, delete_one reported nothing deleted
deriving DecidableEq, Repr

/-- Model of `app/services/role_service.py::RoleService.delete_role`. -/
def delete_role (role_id : String) (store : Store) :
    Except RoleDeleteError Bool × Store :=
  match get_role_by_id role_id store with
  | none => (.error .notFound, store)
  | some _ =>
    if find_users_with_role role_id store then
      (.error .conflict, store)
    else
      let (deleted, store1) := delete_role_db role_id store
      if deleted then (.ok true, store1) else (.error .internalError, store1)

/-! ## Token codec

`app/core/security.py` is imported throughout the source
(`decode_token`, `create_access_token`, `create_refresh_token`,
`verify_password`, `get_password_hash`) but the file itself is not in
the tree, so the codec is modelled from the spec. -/

/-- The JWT claims used anywhere in the source: `sub`, `username`,
`is_superuser`, `type`, `exp`.  Every issued token carries an expiry
instant. -/
structure TokenPayload where
  sub : Option String := none
  username : Option String := none
  is_superuser : Option Bool := none
  type : Option String := none
  exp : Int
deriving DecidableEq, Repr

/-- A structurally well-formed signed token: its claims plus the secret
its signature was computed with (a symmetric signature verifies exactly
when the verifier holds the same secret).  Structurally mangled strings
are outside this model; every value of this type plays the role of a
parseable header+payload+signature string. -/
structure SignedToken where
  payload : TokenPayload
  signedWith : String
deriving DecidableEq, Repr

/-- Failure modes of token parsing (the `jose` library's `JWTError`). -/
inductive JWTError where
  | badSignature
  | expired
deriving DecidableEq, Repr

/-- Modelled from the spec: `app/core/security.py::decode_token` (and
the `jwt.decode(token, SECRET_KEY, algorithms=[ALGORITHM])` calls in
`user_service.py`, which are the same codec primitive).  §4.2:
verification recomputes the signature and rejects on any mismatch, and
separately rejects if `now > exp`; the codec knows nothing about claim
schemas — callers validate the `type` claim after parse. -/
def decode_token (token : SignedToken) (secret : String) (now : Int) :
    Except JWTError TokenPayload :=
  if !(token.signedWith == secret) then .error .badSignature
  else if token.payload.exp < now then .error .expired
  else .ok token.payload

/-- Modelled from the spec: `app/core/security.py::create_access_token`
/ `create_refresh_token` share this shape — §4.2 `issue` stamps
`exp = now + ttl` over the caller's claims and signs with the
deployment secret. -/
def issue_token (secret : String) (now : Int) (data : TokenPayload)
    (expires_delta : Int) : SignedToken :=
  { payload := { data with exp := now + expires_delta }, signedWith := secret }

/-- Model of `app/schemas/token.py` (`Token`): the session pair returned by
login/refresh. -/
structure Token where
  access_token : SignedToken
  refresh_token : SignedToken
  token_type : String
deriving DecidableEq, Repr

/-! ## Service layer: authentication (`app/services/user_service.py`) -/

/-- Errors raised by `UserService.authenticate_user`. -/
inductive AuthError where
  | invalidCredentials                  -- 401 (unknown username or wrong password)
  | accountLocked (lockout_until : Int) -- 403, pre-existing unexpired lockout
  | accountLockedNow (minutes : Int)    -- 403, this attempt crossed the threshold
deriving DecidableEq, Repr

/-- The guard `user.lockout_until and user.lockout_until > datetime.now(utc)`. -/
def lockout_active (now : Int) (u : UserDBModel) : Bool :=
  match u.lockout_until with
  | none => false
  | some t => decide (now < t)

/-- Model of `app/services/user_service.py::UserService.authenticate_user`.
The credential hash check `verify_password` lives in the missing
`app/core/security.py`; per spec §4.1 it is a pure
`verify(plaintext, digest) -> bool`, so it is passed in as the
function argument `verify`.  Note the source consults neither
`is_active` nor anything else between the lockout gate and the
credential check. -/
def authenticate_user (cfg : Settings) (verify : String → String → Bool) (now : Int)
    (username password : String) (store : Store) :
    Except AuthError UserInResponse × Store :=
  match get_user_by_username username store with
  | none => (.error .invalidCredentials, store)
  | some user =>
    if lockout_active now user then
      (.error (.accountLocked (user.lockout_until.getD 0)), store)
    else if !(verify password user.hashed_password) then
      let store1 := increment_failed_login_attempts user.id store
      match get_user_by_username username store1 with
      | some updated_user =>
        if cfg.MAX_FAILED_LOGIN_ATTEMPTS ≤ updated_user.failed_login_attempts then
          let lockout_until := now + cfg.LOCKOUT_DURATION_MINUTES
          let store2 := set_user_lockout updated_user.id lockout_until store1
          (.error (.accountLockedNow cfg.LOCKOUT_DURATION_MINUTES), store2)
        else
          (.error .invalidCredentials, store1)
      | none => (.error .invalidCredentials, store1)
    else
      let store1 := clear_user_lockout_and_attempts user.id store
      let store2 := update_last_login_at now user.id store1
      (.ok (get_populated_user_response store2 user), store2)

/-- Model of `app/services/user_service.py::UserService.create_auth_tokens`:
access payload `{sub, username, is_superuser}`, refresh payload
`{sub}`, both stamped and signed by the codec; `token_type` fixed. -/
def create_auth_tokens (cfg : Settings) (now : Int) (user_id username : String)
    (is_superuser : Bool) : Token :=
  let access_token_payload : TokenPayload :=
    { sub := some user_id, username := some username,
      is_superuser := some is_superuser, exp := 0 }
  let refresh_token_payload : TokenPayload := { sub := some user_id, exp := 0 }
  { access_token :=
      issue_token cfg.SECRET_KEY now access_token_payload cfg.ACCESS_TOKEN_EXPIRE_MINUTES
    refresh_token :=
      issue_token cfg.SECRET_KEY now refresh_token_payload cfg.REFRESH_TOKEN_EXPIRE_MINUTES
    token_type := "bearer" }

/-- Model of `app/api/v1/endpoints/auth.py::login_for_access_token`:
`authenticate_user` then `create_auth_tokens` on the returned
response. -/
def login_for_access_token (cfg : Settings) (verify : String → String → Bool)
    (now : Int) (username password : String) (store : Store) :
    Except AuthError Token × Store :=
  match authenticate_user cfg verify now username password store with
  | (.error e, store') => (.error e, store')
  | (.ok user_db_model, store') =>
    (.ok (create_auth_tokens cfg now user_db_model.id user_db_model.username
            user_db_model.is_superuser), store')

/-- Errors raised by `UserService.refresh_access_token` (all 401). -/
inductive RefreshError where
  | invalidToken           -- decode failed (malformed / bad signature / expired)
  | missingUserId          -- decoded but no usable `sub`
  | userNotFoundOrInactive -- subject missing from the store or inactive
deriving DecidableEq, Repr

/-- Model of `app/services/user_service.py::UserService.refresh_access_token`.
`payload.get("sub")` followed by `if not user_id` treats both a missing
and an empty `sub` as invalid.  No `type` claim is consulted. -/
def refresh_access_token (cfg : Settings) (now : Int) (refresh_token : SignedToken)
    (store : Store) : Except RefreshError Token :=
  match decode_token refresh_token cfg.SECRET_KEY now with
  | .error _ => .error .invalidToken
  | .ok payload =>
    match payload.sub with
    | none => .error .missingUserId
    | some user_id =>
      if user_id == "" then .error .missingUserId
      else
        match get_user_by_id user_id store with
        | none => .error .userNotFoundOrInactive
        | some user =>
          if user.is_active then
            .ok (create_auth_tokens cfg now user.id user.username user.is_superuser)
          else .error .userNotFoundOrInactive

/-- Model of `app/services/user_service.py::UserService.request_password_reset`:
the generic message is returned on both branches; when the account
exists a `password_reset`-typed token is minted for out-of-band
delivery (second component). -/
def request_password_reset (cfg : Settings) (now : Int) (email : String)
    (store : Store) : MessageResponse × Option SignedToken :=
  match get_user_by_email email store with
  | none =>
    ({ message := "Nếu email tồn tại trong hệ thống, hướng dẫn đặt lại mật khẩu đã được gửi." },
     none)
  | some user =>
    let reset_token_payload : TokenPayload :=
      { sub := some user.id, type := some "password_reset",
        exp := now + cfg.RESET_PASSWORD_TOKEN_EXPIRE_MINUTES }
    let reset_token : SignedToken :=
      { payload := reset_token_payload, signedWith := cfg.SECRET_KEY }
    ({ message := "Nếu email tồn tại trong hệ thống, hướng dẫn đặt lại mật khẩu đã được gửi." },
     some reset_token)

/-- Errors raised by `UserService.reset_password`. -/
inductive ResetPasswordError where
  | invalidToken -- 401: decode failure, missing sub, or wrong `type`
  | userNotFound -- 404
deriving DecidableEq, Repr

/-- Model of `app/services/user_service.py::UserService.reset_password`.  The
password hash function lives in the missing `app/core/security.py`
(spec §4.1 `hash(plaintext) -> digest`), passed in as `hash_pw`. -/
def reset_password (cfg : Settings) (hash_pw : String → String) (now : Int)
    (token : SignedToken) (new_password : String) (store : Store) :
    Except ResetPasswordError MessageResponse × Store :=
  match decode_token token cfg.SECRET_KEY now with
  | .error _ => (.error .invalidToken, store)
  | .ok payload =>
    if payload.sub.getD "" == "" || !(payload.type == some "password_reset") then
      (.error .invalidToken, store)
    else
      match get_user_by_id (payload.sub.getD "") store with
      | none => (.error .userNotFound, store)
      | some user =>
        let store1 := update_user_db now
          (fun u => { u with hashed_password := hash_pw new_password,
                             password_changed_at := some now,
                             failed_login_attempts := 0,
                             lockout_until := none }) user.id store
        (.ok { message := "Mật khẩu đã được đặt lại thành công." }, store1)

/-- Errors raised by `UserService.verify_email`. -/
inductive VerifyEmailError where
  | invalidToken    -- 401: decode failure, missing sub, or wrong `type`
  | userNotFound    -- 404
  | alreadyVerified -- 400
deriving DecidableEq, Repr

/-- Model of `app/services/user_service.py::UserService.verify_email`. -/
def verify_email (cfg : Settings) (now : Int) (token : SignedToken) (store : Store) :
    Except VerifyEmailError MessageResponse × Store :=
  match decode_token token cfg.SECRET_KEY now with
  | .error _ => (.error .invalidToken, store)
  | .ok payload =>
    if payload.sub.getD "" == "" || !(payload.type == some "email_verification") then
      (.error .invalidToken, store)
    else
      match get_user_by_id (payload.sub.getD "") store with
      | none => (.error .userNotFound, store)
      | some user =>
        match user.email_verified_at with
        | some _ => (.error .alreadyVerified, store)
        | none =>
          let store1 := update_user_db now
            (fun u => { u with email_verified_at := some now }) user.id store
          (.ok { message := "Email đã được xác minh thành công." }, store1)

/-- A sequence of login attempts with one fixed (wrong) password at the
given instants, keeping only the evolving store: the shape of the
claims about "N consecutive failed authenticate calls". -/
def run_failed_logins (cfg : Settings) (verify : String → String → Bool)
    (username password : String) (times : List Int) (store : Store) : Store :=
  times.foldl (fun s t => (authenticate_user cfg verify t username password s).snd) store

/-! ## Concrete fixtures used by witnesses and counterexamples -/

/-- Concrete settings: `SECRET_KEY` from the environment, every other
field at its `config.py` default. -/
def cfgW : Settings := { SECRET_KEY := "deployment-secret" }

/-- Concrete stand-in for the spec-modelled `verify_password`: the
digest of `p` is `p` itself for test fixtures. -/
def verifyW : String → String → Bool := fun p h => p == h

/-- A fresh, active account. -/
def aliceW : UserDBModel :=
  { id := "u1", username := "alice", email := "a@x.com", hashed_password := "pw1",
    created_at := 0, updated_at := 0 }

/-- Store holding only the fresh account. -/
def storeW : Store := { users := [aliceW], roles := [], permissions := [] }

/-- Store holding only a deactivated copy of the fresh account. -/
def storeInactiveW : Store :=
  { users := [{ aliceW with is_active := false }], roles := [], permissions := [] }

/-- Store holding the account in a saturated post-lockout state: the
counter sits at the threshold and the stored lockout expired at
instant 19. -/
def storeLockedExpiredW : Store :=
  { users := [{ aliceW with failed_login_attempts := 5, lockout_until := some 19 }],
    roles := [], permissions := [] }

/-- RBAC fixture account: holds role `r1` plus a dangling role id. -/
def bobW : UserDBModel :=
  { id := "u1", username := "bob", email := "b@x.com", hashed_password := "pw1",
    created_at := 0, updated_at := 0, role_ids := ["r1", "gone-role"] }

/-- RBAC fixture account: superuser with no roles. -/
def samW : UserDBModel :=
  { id := "u2", username := "sam", email := "s@x.com", hashed_password := "pw2",
    is_superuser := true, created_at := 0, updated_at := 0 }

/-- RBAC fixture account: no roles at all. -/
def nehaW : UserDBModel :=
  { id := "u3", username := "neha", email := "n@x.com", hashed_password := "pw3",
    created_at := 0, updated_at := 0 }

/-- RBAC fixture role: two live permission ids and one dangling id;
referenced by `bobW`. -/
def editorRoleW : RoleDBModel :=
  { id := "r1", name := "editor", permission_ids := ["p1", "p2", "gone-perm"],
    created_at := 0, updated_at := 0 }

/-- RBAC fixture role referenced by no account. -/
def ghostRoleW : RoleDBModel :=
  { id := "r2", name := "ghost", permission_ids := ["p1"],
    created_at := 0, updated_at := 0 }

/-- RBAC fixture permission. -/
def readAllPermW : PermissionDBModel :=
  { id := "p1", name := "article:read_all", created_at := 0, updated_at := 0 }

/-- RBAC fixture permission. -/
def editPermW : PermissionDBModel :=
  { id := "p2", name := "article:edit", created_at := 0, updated_at := 0 }

/-- RBAC fixture store combining the accounts, roles and permissions
above. -/
def storeRbacW : Store :=
  { users := [bobW, samW, nehaW],
    roles := [editorRoleW, ghostRoleW],
    permissions := [readAllPermW, editPermW] }

/-- A `password_reset`-typed token for `u1`, correctly signed with the
fixture secret and expiring at instant 100. -/
def resetTokenW : SignedToken :=
  { payload := { sub := some "u1", type := some "password_reset", exp := 100 },
    signedWith := "deployment-secret" }

/-- An `email_verification`-typed token for `u1`, correctly signed with
the fixture secret and expiring at instant 100. -/
def verifyTokenW : SignedToken :=
  { payload := { sub := some "u1", type := some "email_verification", exp := 100 },
    signedWith := "deployment-secret" }

/-! ## Helper lemmas about the repository writers -/

/-- A username-preserving per-id rewrite commutes with username
lookup. -/
theorem get_user_by_username_update (username user_id : String)
    (f : UserDBModel → UserDBModel) (hf : ∀ u, (f u).username = u.username)
    (store : Store) :
    get_user_by_username username (update_users_matching user_id f store) =
      (get_user_by_username username store).map
        (fun u => if u.id == user_id then f u else u) := by
  unfold get_user_by_username update_users_matching
  simp only [List.find?_map]
  have hfun : ((fun u : UserDBModel => u.username == username) ∘
      fun u => if u.id == user_id then f u else u) =
      (fun u : UserDBModel => u.username == username) := by
    funext u
    simp only [Function.comp_apply]
    cases h : u.id == user_id <;> simp [h, hf]
  rw [hfun]

/-- Rewriting the found user's own id updates exactly that lookup
result (for username-preserving rewrites). -/
theorem get_user_by_username_update_found (username : String) (store : Store)
    (u : UserDBModel) (f : UserDBModel → UserDBModel)
    (h : get_user_by_username username store = some u)
    (hf : ∀ v, (f v).username = v.username) :
    get_user_by_username username (update_users_matching u.id f store) = some (f u) := by
  rw [get_user_by_username_update username u.id f hf store, h]
  simp

/-! ## Helper lemmas about `authenticate_user` -/

/-- An unexpired lockout rejects the attempt before anything else, with
no store write. -/
theorem authenticate_locked (cfg : Settings) (verify : String → String → Bool)
    (now : Int) (username password : String) (store : Store) (u : UserDBModel) (t : Int)
    (hfind : get_user_by_username username store = some u)
    (hl : u.lockout_until = some t) (hnow : now < t) :
    authenticate_user cfg verify now username password store =
      (.error (.accountLocked t), store) := by
  unfold authenticate_user
  rw [hfind]
  have hact : lockout_active now u = true := by
    unfold lockout_active; rw [hl]; simpa using hnow
  simp [hact, hl]

/-- A wrong password with no active lockout increments the counter and
either locks (threshold reached) or reports invalid credentials. -/
theorem authenticate_wrong (cfg : Settings) (verify : String → String → Bool)
    (now : Int) (username password : String) (store : Store) (u : UserDBModel)
    (hfind : get_user_by_username username store = some u)
    (hlock : lockout_active now u = false)
    (hw : verify password u.hashed_password = false) :
    authenticate_user cfg verify now username password store =
      if cfg.MAX_FAILED_LOGIN_ATTEMPTS ≤ u.failed_login_attempts + 1 then
        (.error (.accountLockedNow cfg.LOCKOUT_DURATION_MINUTES),
         set_user_lockout u.id (now + cfg.LOCKOUT_DURATION_MINUTES)
           (increment_failed_login_attempts u.id store))
      else
        (.error .invalidCredentials, increment_failed_login_attempts u.id store) := by
  have hinc : get_user_by_username username (increment_failed_login_attempts u.id store) =
      some { u with failed_login_attempts := u.failed_login_attempts + 1 } := by
    unfold increment_failed_login_attempts
    exact get_user_by_username_update_found username store u _ hfind (fun v => rfl)
  unfold authenticate_user
  rw [hfind]
  simp only [hlock, hw, Bool.not_false, Bool.false_eq_true, if_false, if_true, hinc]

/-- Below the threshold: wrong password fails `invalidCredentials` and
the stored counter rises by one (lockout stays as it was). -/
theorem authenticate_wrong_below (cfg : Settings) (verify : String → String → Bool)
    (now : Int) (username password : String) (store : Store) (u : UserDBModel)
    (hfind : get_user_by_username username store = some u)
    (hlock : lockout_active now u = false)
    (hw : verify password u.hashed_password = false)
    (hbelow : u.failed_login_attempts + 1 < cfg.MAX_FAILED_LOGIN_ATTEMPTS) :
    authenticate_user cfg verify now username password store =
      (.error .invalidCredentials, increment_failed_login_attempts u.id store) ∧
    get_user_by_username username (increment_failed_login_attempts u.id store) =
      some { u with failed_login_attempts := u.failed_login_attempts + 1 } := by
  constructor
  · rw [authenticate_wrong cfg verify now username password store u hfind hlock hw]
    rw [if_neg (by omega)]
  · unfold increment_failed_login_attempts
    exact get_user_by_username_update_found username store u _ hfind (fun v => rfl)

/-- At the threshold: the attempt that makes the counter reach
`MAX_FAILED_LOGIN_ATTEMPTS` reports the just-locked error and stores a
lockout expiring a full `LOCKOUT_DURATION_MINUTES` after `now`, with
the counter incremented (not reset). -/
theorem authenticate_wrong_lock (cfg : Settings) (verify : String → String → Bool)
    (now : Int) (username password : String) (store : Store) (u : UserDBModel)
    (hfind : get_user_by_username username store = some u)
    (hlock : lockout_active now u = false)
    (hw : verify password u.hashed_password = false)
    (hth : cfg.MAX_FAILED_LOGIN_ATTEMPTS ≤ u.failed_login_attempts + 1) :
    authenticate_user cfg verify now username password store =
      (.error (.accountLockedNow cfg.LOCKOUT_DURATION_MINUTES),
       set_user_lockout u.id (now + cfg.LOCKOUT_DURATION_MINUTES)
         (increment_failed_login_attempts u.id store)) ∧
    get_user_by_username username
        (set_user_lockout u.id (now + cfg.LOCKOUT_DURATION_MINUTES)
          (increment_failed_login_attempts u.id store)) =
      some { u with failed_login_attempts := u.failed_login_attempts + 1,
                    lockout_until := some (now + cfg.LOCKOUT_DURATION_MINUTES) } := by
  have hinc : get_user_by_username username (increment_failed_login_attempts u.id store) =
      some { u with failed_login_attempts := u.failed_login_attempts + 1 } := by
    unfold increment_failed_login_attempts
    exact get_user_by_username_update_found username store u _ hfind (fun v => rfl)
  constructor
  · rw [authenticate_wrong cfg verify now username password store u hfind hlock hw]
    rw [if_pos hth]
  · unfold set_user_lockout
    exact get_user_by_username_update_found username _ _ _ hinc (fun v => rfl)

/-- A correct password with no active lockout succeeds, clears the
counter and the lockout, and stamps `last_login_at`. -/
theorem authenticate_success (cfg : Settings) (verify : String → String → Bool)
    (now : Int) (username password : String) (store : Store) (u : UserDBModel)
    (hfind : get_user_by_username username store = some u)
    (hlock : lockout_active now u = false)
    (hc : verify password u.hashed_password = true) :
    authenticate_user cfg verify now username password store =
      (.ok (get_populated_user_response
             (update_last_login_at now u.id (clear_user_lockout_and_attempts u.id store)) u),
       update_last_login_at now u.id (clear_user_lockout_and_attempts u.id store)) ∧
    get_user_by_username username (authenticate_user cfg verify now username password store).snd =
      some { u with lockout_until := none, failed_login_attempts := 0,
                    last_login_at := some now } := by
  have heq : authenticate_user cfg verify now username password store =
      (.ok (get_populated_user_response
             (update_last_login_at now u.id (clear_user_lockout_and_attempts u.id store)) u),
       update_last_login_at now u.id (clear_user_lockout_and_attempts u.id store)) := by
    unfold authenticate_user
    rw [hfind]
    simp [hlock, hc]
  refine ⟨heq, ?_⟩
  rw [heq]
  have hclear : get_user_by_username username (clear_user_lockout_and_attempts u.id store) =
      some { u with lockout_until := none, failed_login_attempts := 0 } := by
    unfold clear_user_lockout_and_attempts
    exact get_user_by_username_update_found username store u _ hfind (fun v => rfl)
  unfold update_last_login_at
  exact get_user_by_username_update_found username _ _ _ hclear (fun v => rfl)

/-- Running `n` wrong-password attempts from an unlocked account keeps
it unlocked and adds `n` to the counter, as long as the counter stays
strictly below the threshold. -/
theorem run_failed_logins_below (cfg : Settings) (verify : String → String → Bool)
    (username password : String) :
    ∀ (times : List Int) (store : Store) (u : UserDBModel),
    get_user_by_username username store = some u →
    u.lockout_until = none →
    verify password u.hashed_password = false →
    u.failed_login_attempts + times.length < cfg.MAX_FAILED_LOGIN_ATTEMPTS →
    get_user_by_username username
        (run_failed_logins cfg verify username password times store) =
      some { u with failed_login_attempts := u.failed_login_attempts + times.length } := by
  intro times
  induction times with
  | nil =>
    intro store u hfind _ _ _
    simpa [run_failed_logins] using hfind
  | cons t ts ih =>
    intro store u hfind hnone hw hlen
    have hlock : lockout_active t u = false := by unfold lockout_active; rw [hnone]
    have hstep := authenticate_wrong_below cfg verify t username password store u
      hfind hlock hw (by simp at hlen; omega)
    have hrun : run_failed_logins cfg verify username password (t :: ts) store =
        run_failed_logins cfg verify username password ts
          (increment_failed_login_attempts u.id store) := by
      unfold run_failed_logins
      simp only [List.foldl_cons, hstep.1]
    rw [hrun]
    have := ih (increment_failed_login_attempts u.id store)
      { u with failed_login_attempts := u.failed_login_attempts + 1 }
      hstep.2 (by simp [hnone]) hw (by simp at hlen ⊢; omega)
    rw [this]
    have harith : u.failed_login_attempts + 1 + ts.length =
        u.failed_login_attempts + (ts.length + 1) := by omega
    simp [harith]

/-! ## Claim theorems -/

/-- C3: after exactly `MAX_FAILED_LOGIN_ATTEMPTS` consecutive failed
authenticate calls on a fresh account, the stored state is locked until
`LOCKOUT_DURATION` past the last failure; every authenticate attempt
(any password, even the correct one) before that expiry is rejected as
`AccountLocked`; and once the expiry has passed, a correct-password
attempt succeeds, resets the failed-attempt counter to 0 and clears the
lockout timestamp. -/
theorem C3_lockout_cycle
    (cfg : Settings) (verify : String → String → Bool)
    (username password_wrong password_correct : String)
    (store : Store) (u0 : UserDBModel) (times : List Int) (tLast : Int)
    (hfind : get_user_by_username username store = some u0)
    (hattempts : u0.failed_login_attempts = 0)
    (hlockout : u0.lockout_until = none)
    (hwrong : verify password_wrong u0.hashed_password = false)
    (hcorrect : verify password_correct u0.hashed_password = true)
    (hlen : times.length = cfg.MAX_FAILED_LOGIN_ATTEMPTS)
    (hlast : times.getLast? = some tLast) :
    get_user_by_username username
        (run_failed_logins cfg verify username password_wrong times store) =
      some { u0 with failed_login_attempts := cfg.MAX_FAILED_LOGIN_ATTEMPTS,
                     lockout_until := some (tLast + cfg.LOCKOUT_DURATION_MINUTES) } ∧
    (∀ now pw, now < tLast + cfg.LOCKOUT_DURATION_MINUTES →
      (authenticate_user cfg verify now username pw
          (run_failed_logins cfg verify username password_wrong times store)).fst =
        .error (.accountLocked (tLast + cfg.LOCKOUT_DURATION_MINUTES))) ∧
    (∀ now, tLast + cfg.LOCKOUT_DURATION_MINUTES ≤ now →
      (authenticate_user cfg verify now username password_correct
          (run_failed_logins cfg verify username password_wrong times store)).fst.isOk
        = true ∧
      get_user_by_username username
          (authenticate_user cfg verify now username password_correct
            (run_failed_logins cfg verify username password_wrong times store)).snd =
        some { u0 with failed_login_attempts := 0, lockout_until := none,
                       last_login_at := some now }) := by
  obtain ⟨init, rfl⟩ := List.getLast?_eq_some_iff.1 hlast
  have hinitlen : init.length + 1 = cfg.MAX_FAILED_LOGIN_ATTEMPTS := by
    simpa using hlen
  have hrun1 : get_user_by_username username
      (run_failed_logins cfg verify username password_wrong init store) =
      some { u0 with failed_login_attempts := u0.failed_login_attempts + init.length } :=
    run_failed_logins_below cfg verify username password_wrong init store u0
      hfind hlockout hwrong (by omega)
  have hsplit : run_failed_logins cfg verify username password_wrong (init ++ [tLast]) store =
      (authenticate_user cfg verify tLast username password_wrong
        (run_failed_logins cfg verify username password_wrong init store)).snd := by
    unfold run_failed_logins
    rw [List.foldl_append]
    simp only [List.foldl_cons, List.foldl_nil]
  have hlock1 : lockout_active tLast
      { u0 with failed_login_attempts := u0.failed_login_attempts + init.length } = false := by
    unfold lockout_active
    simp [hlockout]
  have hstep := authenticate_wrong_lock cfg verify tLast username password_wrong _
    { u0 with failed_login_attempts := u0.failed_login_attempts + init.length }
    hrun1 hlock1 hwrong (by simp [hattempts]; omega)
  have hfinal : get_user_by_username username
      (run_failed_logins cfg verify username password_wrong (init ++ [tLast]) store) =
      some { u0 with failed_login_attempts := cfg.MAX_FAILED_LOGIN_ATTEMPTS,
                     lockout_until := some (tLast + cfg.LOCKOUT_DURATION_MINUTES) } := by
    rw [hsplit, hstep.1]
    rw [hstep.2]
    have : u0.failed_login_attempts + init.length + 1 =
        cfg.MAX_FAILED_LOGIN_ATTEMPTS := by omega
    simp [this]
  refine ⟨hfinal, ?_, ?_⟩
  · intro now pw hnow
    rw [authenticate_locked cfg verify now username pw _ _
      (tLast + cfg.LOCKOUT_DURATION_MINUTES) hfinal rfl hnow]
  · intro now hnow
    have hla : lockout_active now
        { u0 with failed_login_attempts := cfg.MAX_FAILED_LOGIN_ATTEMPTS,
                  lockout_until := some (tLast + cfg.LOCKOUT_DURATION_MINUTES) } = false := by
      unfold lockout_active
      simp only [decide_eq_false_iff_not]
      omega
    have hsucc := authenticate_success cfg verify now username password_correct _
      { u0 with failed_login_attempts := cfg.MAX_FAILED_LOGIN_ATTEMPTS,
                lockout_until := some (tLast + cfg.LOCKOUT_DURATION_MINUTES) }
      hfinal hla hcorrect
    refine ⟨by rw [hsucc.1]; rfl, ?_⟩
    rw [hsucc.2]

/-- C3 witness: with the default settings (threshold 5, lockout 15
minutes), five wrong-password attempts at instants 0..4 lock the fresh
account; a correct-password attempt at instant 30 (past the expiry 19)
succeeds. -/
theorem C3_lockout_cycle_witness :
    (authenticate_user cfgW verifyW 30 "alice" "pw1"
        (run_failed_logins cfgW verifyW "alice" "wrong" [0, 1, 2, 3, 4] storeW)).fst.isOk
      = true :=
  ((C3_lockout_cycle cfgW verifyW "alice" "wrong" "pw1" storeW aliceW [0, 1, 2, 3, 4] 4
      (by decide) (by decide) (by decide) (by decide) (by decide) (by decide)
      (by decide)).2.2 30 (by decide)).1

/-- C4 counterexample: with the default threshold 5, the fifth
consecutive wrong-password attempt on a fresh account does NOT fail
with `invalidCredentials` — it fails with the just-locked
`accountLockedNow` error (HTTP 403), refuting the claimed error kind
for the fifth attempt. -/
theorem C4_counterexample :
    (authenticate_user cfgW verifyW 4 "alice" "wrong"
        (run_failed_logins cfgW verifyW "alice" "wrong" [0, 1, 2, 3] storeW)).fst =
      .error (.accountLockedNow 15) ∧
    (Except.error (AuthError.accountLockedNow 15) :
        Except AuthError UserInResponse) ≠ .error .invalidCredentials := by
  decide

/-- C4 (amended): with `MAX_FAILED_LOGIN_ATTEMPTS = 5`, four wrong
attempts on a fresh account leave it unlocked with counter 4; the fifth
wrong attempt fails `accountLockedNow` (an `AccountLocked`-kind 403,
not `InvalidCredentials`) and locks the account as a side effect; the
sixth attempt — whatever password it carries, including the correct one
— fails `accountLocked` while the lockout is unexpired. -/
theorem C4_fifth_attempt_locks
    (cfg : Settings) (verify : String → String → Bool)
    (username pw_wrong pw6 : String) (store : Store) (u0 : UserDBModel)
    (times4 : List Int) (t5 now6 : Int)
    (hmax : cfg.MAX_FAILED_LOGIN_ATTEMPTS = 5)
    (hfind : get_user_by_username username store = some u0)
    (hattempts : u0.failed_login_attempts = 0)
    (hlockout : u0.lockout_until = none)
    (hwrong : verify pw_wrong u0.hashed_password = false)
    (hlen : times4.length = 4)
    (hnow6 : now6 < t5 + cfg.LOCKOUT_DURATION_MINUTES) :
    get_user_by_username username
        (run_failed_logins cfg verify username pw_wrong times4 store) =
      some { u0 with failed_login_attempts := 4 } ∧
    (authenticate_user cfg verify t5 username pw_wrong
        (run_failed_logins cfg verify username pw_wrong times4 store)).fst =
      .error (.accountLockedNow cfg.LOCKOUT_DURATION_MINUTES) ∧
    get_user_by_username username
        (authenticate_user cfg verify t5 username pw_wrong
          (run_failed_logins cfg verify username pw_wrong times4 store)).snd =
      some { u0 with failed_login_attempts := 5,
                     lockout_until := some (t5 + cfg.LOCKOUT_DURATION_MINUTES) } ∧
    (authenticate_user cfg verify now6 username pw6
        (authenticate_user cfg verify t5 username pw_wrong
          (run_failed_logins cfg verify username pw_wrong times4 store)).snd).fst =
      .error (.accountLocked (t5 + cfg.LOCKOUT_DURATION_MINUTES)) := by
  have hrun4 : get_user_by_username username
      (run_failed_logins cfg verify username pw_wrong times4 store) =
      some { u0 with failed_login_attempts := u0.failed_login_attempts + times4.length } :=
    run_failed_logins_below cfg verify username pw_wrong times4 store u0
      hfind hlockout hwrong (by omega)
  have hrun4' : get_user_by_username username
      (run_failed_logins cfg verify username pw_wrong times4 store) =
      some { u0 with failed_login_attempts := 4 } := by
    rw [hrun4]
    simp [hattempts, hlen]
  have hlock4 : lockout_active t5 { u0 with failed_login_attempts := 4 } = false := by
    unfold lockout_active
    simp [hlockout]
  have hstep := authenticate_wrong_lock cfg verify t5 username pw_wrong _
    { u0 with failed_login_attempts := 4 } hrun4' hlock4 hwrong (by simp [hmax])
  have hpost : get_user_by_username username
      (authenticate_user cfg verify t5 username pw_wrong
        (run_failed_logins cfg verify username pw_wrong times4 store)).snd =
      some { u0 with failed_login_attempts := 5,
                     lockout_until := some (t5 + cfg.LOCKOUT_DURATION_MINUTES) } := by
    rw [hstep.1]
    exact hstep.2
  refine ⟨hrun4', by rw [hstep.1], hpost, ?_⟩
  rw [authenticate_locked cfg verify now6 username pw6 _ _
    (t5 + cfg.LOCKOUT_DURATION_MINUTES) hpost rfl hnow6]

/-- C4 witness: concrete six-attempt run against the fixture account
under the default settings: the sixth attempt, carrying the correct
password at instant 10, fails `accountLocked` with expiry 19. -/
theorem C4_fifth_attempt_locks_witness :
    (authenticate_user cfgW verifyW 10 "alice" "pw1"
        (authenticate_user cfgW verifyW 4 "alice" "wrong"
          (run_failed_logins cfgW verifyW "alice" "wrong" [0, 1, 2, 3] storeW)).snd).fst =
      .error (.accountLocked 19) :=
  (C4_fifth_attempt_locks cfgW verifyW "alice" "wrong" "pw1" storeW aliceW [0, 1, 2, 3]
    4 10 (by decide) (by decide) (by decide) (by decide) (by decide) (by decide)
    (by decide)).2.2.2

/-- C10: in a state whose lockout window has expired by the passage of
time alone, the failed-attempt counter still sits at or above the
threshold, so one single wrong-password attempt immediately re-locks
the account for a full fresh `LOCKOUT_DURATION_MINUTES` from `now`
(with the counter incremented, not reset — so it stays at or above the
threshold). -/
theorem C10_expired_lockout_relocks
    (cfg : Settings) (verify : String → String → Bool) (now : Int)
    (username password : String) (store : Store) (u : UserDBModel) (t : Int)
    (hfind : get_user_by_username username store = some u)
    (hlock : u.lockout_until = some t)
    (hexpired : t ≤ now)
    (hcount : cfg.MAX_FAILED_LOGIN_ATTEMPTS ≤ u.failed_login_attempts)
    (hwrong : verify password u.hashed_password = false) :
    (authenticate_user cfg verify now username password store).fst =
      .error (.accountLockedNow cfg.LOCKOUT_DURATION_MINUTES) ∧
    get_user_by_username username
        (authenticate_user cfg verify now username password store).snd =
      some { u with failed_login_attempts := u.failed_login_attempts + 1,
                    lockout_until := some (now + cfg.LOCKOUT_DURATION_MINUTES) } ∧
    cfg.MAX_FAILED_LOGIN_ATTEMPTS ≤ u.failed_login_attempts + 1 := by
  have hla : lockout_active now u = false := by
    unfold lockout_active
    rw [hlock]
    simp only [decide_eq_false_iff_not]
    omega
  have hstep := authenticate_wrong_lock cfg verify now username password store u
    hfind hla hwrong (by omega)
  refine ⟨by rw [hstep.1], ?_, by omega⟩
  rw [hstep.1]
  exact hstep.2

/-- C10 witness: the fixture account with counter 5 and a lockout that
expired at instant 19, probed with a wrong password at instant 30,
fails `accountLockedNow` (re-locked for the full 15 minutes). -/
theorem C10_expired_lockout_relocks_witness :
    (authenticate_user cfgW verifyW 30 "alice" "wrong" storeLockedExpiredW).fst =
      .error (.accountLockedNow 15) :=
  (C10_expired_lockout_relocks cfgW verifyW 30 "alice" "wrong" storeLockedExpiredW
    { aliceW with failed_login_attempts := 5, lockout_until := some 19 } 19
    (by decide) (by decide) (by decide) (by decide) (by decide)).1

/-- C1 counterexample: the fixture store holds a single deactivated
account; a login with the correct password and no lockout nevertheless
succeeds and is issued a session token pair, refuting the claim that
`is_active = false` blocks the login path. -/
theorem C1_counterexample :
    (get_user_by_username "alice" storeInactiveW).map (fun u => u.is_active) =
      some false ∧
    (login_for_access_token cfgW verifyW 0 "alice" "pw1" storeInactiveW).fst.isOk
      = true := by
  decide

/-- C1 (amended): the login path never consults `is_active`: whenever
the stored account (active or not) is found, has no unexpired lockout
and the password verifies, `login_for_access_token` returns a freshly
minted session token pair.  Deactivation is enforced on the
token-consuming side instead: the service-level refresh path rejects a
valid refresh token whose subject is inactive. -/
theorem C1_login_ignores_is_active
    (cfg : Settings) (verify : String → String → Bool) (now : Int)
    (username password : String) (store : Store) (u : UserDBModel)
    (hfind : get_user_by_username username store = some u)
    (hlock : lockout_active now u = false)
    (hpw : verify password u.hashed_password = true) :
    (login_for_access_token cfg verify now username password store).fst =
      .ok (create_auth_tokens cfg now u.id u.username u.is_superuser) ∧
    (∀ (tok : SignedToken) (uid : String) (user : UserDBModel),
      tok.signedWith = cfg.SECRET_KEY → ¬ tok.payload.exp < now →
      tok.payload.sub = some uid → (uid == "") = false →
      get_user_by_id uid store = some user → user.is_active = false →
      refresh_access_token cfg now tok store = .error .userNotFoundOrInactive) := by
  constructor
  · have hsucc := authenticate_success cfg verify now username password store u
      hfind hlock hpw
    unfold login_for_access_token
    rw [hsucc.1]
    rfl
  · intro tok uid user hsig hexp hsub hne huser hinactive
    unfold refresh_access_token decode_token
    rw [hsig]
    simp only [beq_self_eq_true, Bool.not_true, Bool.false_eq_true, if_false,
      if_neg hexp, hsub, hne, huser, hinactive]

/-- C1 witness: the deactivated fixture account at instant 0 with the
correct password is issued tokens by the login path. -/
theorem C1_login_ignores_is_active_witness :
    (login_for_access_token cfgW verifyW 0 "alice" "pw1" storeInactiveW).fst =
      .ok (create_auth_tokens cfgW 0 "u1" "alice" false) :=
  (C1_login_ignores_is_active cfgW verifyW 0 "alice" "pw1" storeInactiveW
    { aliceW with is_active := false } (by decide) (by decide) (by decide)).1

/-- A successful parse always returns the token's own payload. -/
theorem decode_token_ok_payload (token : SignedToken) (secret : String) (now : Int)
    (payload : TokenPayload) (h : decode_token token secret now = .ok payload) :
    payload = token.payload := by
  unfold decode_token at h
  split at h
  · exact absurd h (by simp)
  · split at h
    · exact absurd h (by simp)
    · simpa using h.symm

/-- C2 counterexample: a correctly signed, unexpired token carrying
`type = "password_reset"` (and a `sub` resolving to an active account)
is accepted by the refresh path, which the claim says must fail
`InvalidToken`. -/
theorem C2_counterexample :
    resetTokenW.payload.type = some "password_reset" ∧
    decode_token resetTokenW cfgW.SECRET_KEY 0 = .ok resetTokenW.payload ∧
    (refresh_access_token cfgW 0 resetTokenW storeW).isOk = true := by
  decide

/-- C2 (amended): `verify_email` rejects every token whose `type` claim
differs from `email_verification` with `InvalidToken` and leaves the
store untouched, and `reset_password` symmetrically rejects every token
whose `type` differs from `password_reset` — so cross-presentation
between those two one-shot paths always fails — but the refresh path
checks only that a `sub` claim is present: any correctly signed,
unexpired token whose subject resolves to an active account is accepted
there regardless of its `type` claim. -/
theorem C2_token_type_enforcement :
    (∀ (cfg : Settings) (now : Int) (tok : SignedToken) (store : Store),
      tok.payload.type ≠ some "email_verification" →
      verify_email cfg now tok store = (.error .invalidToken, store)) ∧
    (∀ (cfg : Settings) (hash_pw : String → String) (now : Int) (tok : SignedToken)
        (new_password : String) (store : Store),
      tok.payload.type ≠ some "password_reset" →
      reset_password cfg hash_pw now tok new_password store =
        (.error .invalidToken, store)) ∧
    (∀ (cfg : Settings) (now : Int) (tok : SignedToken) (store : Store)
        (uid : String) (user : UserDBModel),
      tok.signedWith = cfg.SECRET_KEY → ¬ tok.payload.exp < now →
      tok.payload.sub = some uid → (uid == "") = false →
      get_user_by_id uid store = some user → user.is_active = true →
      (refresh_access_token cfg now tok store).isOk = true) := by
  refine ⟨?_, ?_, ?_⟩
  · intro cfg now tok store htype
    unfold verify_email
    cases hd : decode_token tok cfg.SECRET_KEY now with
    | error e => rfl
    | ok payload =>
      have hp : payload = tok.payload := decode_token_ok_payload tok _ now payload hd
      have hcond : (payload.sub.getD "" == "" ||
          !(payload.type == some "email_verification")) = true := by
        subst hp
        have : (tok.payload.type == some "email_verification") = false := by
          simpa using htype
        simp [this]
      simp only [hcond, if_true]
  · intro cfg hash_pw now tok new_password store htype
    unfold reset_password
    cases hd : decode_token tok cfg.SECRET_KEY now with
    | error e => rfl
    | ok payload =>
      have hp : payload = tok.payload := decode_token_ok_payload tok _ now payload hd
      have hcond : (payload.sub.getD "" == "" ||
          !(payload.type == some "password_reset")) = true := by
        subst hp
        have : (tok.payload.type == some "password_reset") = false := by
          simpa using htype
        simp [this]
      simp only [hcond, if_true]
  · intro cfg now tok store uid user hsig hexp hsub hne huser hactive
    unfold refresh_access_token decode_token
    rw [hsig]
    simp only [beq_self_eq_true, Bool.not_true, Bool.false_eq_true, if_false,
      if_neg hexp, hsub, hne, huser, hactive, if_true]
    rfl

/-- C2 witness: the `password_reset` fixture token is rejected by
`verify_email`, the `email_verification` fixture token is rejected by
`reset_password`, and the `password_reset` fixture token is accepted by
the refresh path — all at instant 0, before the expiry 100, under the
fixture secret and store. -/
theorem C2_token_type_enforcement_witness :
    verify_email cfgW 0 resetTokenW storeW = (.error .invalidToken, storeW) ∧
    reset_password cfgW (fun p => p) 0 verifyTokenW "NewPass123" storeW =
      (.error .invalidToken, storeW) ∧
    (refresh_access_token cfgW 0 resetTokenW storeW).isOk = true :=
  ⟨C2_token_type_enforcement.1 cfgW 0 resetTokenW storeW (by decide),
   C2_token_type_enforcement.2.1 cfgW (fun p => p) 0 verifyTokenW "NewPass123" storeW
     (by decide),
   C2_token_type_enforcement.2.2 cfgW 0 resetTokenW storeW "u1" aliceW
     (by decide) (by decide) (by decide) (by decide) (by decide) (by decide)⟩

/-- Membership in the `extend`-style fold that collects every
`permission_ids` entry across a role list. -/
theorem mem_foldl_append_permission_ids (roles : List RoleDBModel) :
    ∀ (l : List String) (x : String),
    x ∈ roles.foldl (fun acc r => acc ++ r.permission_ids) l ↔
      x ∈ l ∨ ∃ r ∈ roles, x ∈ r.permission_ids := by
  induction roles with
  | nil => intro l x; simp
  | cons r rs ih =>
    intro l x
    rw [List.foldl_cons, ih]
    simp [List.mem_append, or_assoc]

/-- C5: the populated permission list contains exactly the names of
the stored permissions reachable from the account's role-id list
through stored roles (dangling role ids and dangling permission ids
are silently skipped, because only stored entities can satisfy the
existential); an empty role-id list yields the empty permission list
rather than an error. -/
theorem C5_permission_resolution (store : Store) (u : UserDBModel) (pname : String) :
    (pname ∈ (get_populated_user_response store u).permissions ↔
      ∃ p ∈ store.permissions, p.name = pname ∧
        ∃ r ∈ store.roles, r.id ∈ u.role_ids ∧ p.id ∈ r.permission_ids) ∧
    (u.role_ids = [] → (get_populated_user_response store u).permissions = []) := by
  constructor
  · unfold get_populated_user_response get_roles_by_ids get_permissions_by_ids
    by_cases hempty : u.role_ids.isEmpty
    · have hnil : u.role_ids = [] := by simpa using hempty
      simp [hempty, hnil]
    · simp only [hempty, Bool.false_eq_true, if_false]
      set all := (store.roles.filter (fun r => u.role_ids.contains r.id)).foldl
          (fun acc r => acc ++ r.permission_ids) [] with hall_def
      have hmem_all : ∀ x, x ∈ all ↔
          ∃ r ∈ store.roles, r.id ∈ u.role_ids ∧ x ∈ r.permission_ids := by
        intro x
        rw [hall_def, mem_foldl_append_permission_ids]
        simp [List.mem_filter, and_assoc]
      by_cases hall : all.isEmpty
      · have hnil : all = [] := by simpa using hall
        simp only [hall, if_true, List.map_nil, List.not_mem_nil, false_iff]
        rintro ⟨p, hp, hname, r, hr, hrid, hpid⟩
        have hin : p.id ∈ all := (hmem_all p.id).mpr ⟨r, hr, hrid, hpid⟩
        rw [hnil] at hin
        simp at hin
      · simp only [hall, Bool.false_eq_true, if_false, List.mem_map, List.mem_filter]
        constructor
        · rintro ⟨p, ⟨hp, hpin⟩, hname⟩
          have hin : p.id ∈ all := List.mem_dedup.mp (by simpa using hpin)
          obtain ⟨r, hr, hrid, hpid⟩ := (hmem_all p.id).mp hin
          exact ⟨p, hp, hname, r, hr, hrid, hpid⟩
        · rintro ⟨p, hp, hname, r, hr, hrid, hpid⟩
          refine ⟨p, ⟨hp, ?_⟩, hname⟩
          have hin : p.id ∈ all := (hmem_all p.id).mpr ⟨r, hr, hrid, hpid⟩
          simpa using List.mem_dedup.mpr hin
  · intro hnil
    unfold get_populated_user_response
    simp [hnil]

/-- C5 witness: in the RBAC fixture, `bob` (role `r1` plus a dangling
role id, `r1` itself holding a dangling permission id) resolves
`article:read_all`, and the role-less account resolves the empty
permission list. -/
theorem C5_permission_resolution_witness :
    "article:read_all" ∈ (get_populated_user_response storeRbacW bobW).permissions ∧
    (get_populated_user_response storeRbacW nehaW).permissions = [] :=
  ⟨(C5_permission_resolution storeRbacW bobW "article:read_all").1.mpr
      ⟨readAllPermW, by decide, rfl, editorRoleW, by decide, by decide, by decide⟩,
   (C5_permission_resolution storeRbacW nehaW "x").2 rfl⟩

/-- C6: the authorization gate passes a superuser unconditionally; a
non-superuser passes exactly when the permission name is in the freshly
populated permission list, and otherwise fails `forbidden`. -/
theorem C6_authorization_gate (store : Store) (u : UserDBModel) (pname : String) :
    (u.is_superuser = true →
      requires_permission pname (get_populated_user_response store u) =
        .ok (get_populated_user_response store u)) ∧
    (u.is_superuser = false →
      (requires_permission pname (get_populated_user_response store u) =
          .ok (get_populated_user_response store u) ↔
        pname ∈ (get_populated_user_response store u).permissions)) ∧
    (u.is_superuser = false →
      pname ∉ (get_populated_user_response store u).permissions →
      requires_permission pname (get_populated_user_response store u) =
        .error .forbidden) := by
  have hsup : (get_populated_user_response store u).is_superuser = u.is_superuser := rfl
  refine ⟨fun h => ?_, fun h => ?_, fun h hmem => ?_⟩
  · unfold requires_permission
    rw [hsup, h]
    simp
  · unfold requires_permission
    rw [hsup, h]
    by_cases hm : pname ∈ (get_populated_user_response store u).permissions <;> simp [hm]
  · unfold requires_permission
    rw [hsup, h]
    simp [hmem]

/-- C6 witness: in the RBAC fixture the superuser passes an arbitrary
permission check, and the role-less non-superuser is rejected with
`forbidden` for `article:edit`. -/
theorem C6_authorization_gate_witness :
    requires_permission "role:delete" (get_populated_user_response storeRbacW samW) =
      .ok (get_populated_user_response storeRbacW samW) ∧
    requires_permission "article:edit" (get_populated_user_response storeRbacW nehaW) =
      .error .forbidden :=
  ⟨(C6_authorization_gate storeRbacW samW "role:delete").1 rfl,
   (C6_authorization_gate storeRbacW nehaW "article:edit").2.2 rfl (by decide)⟩

/-- C7: the password-reset request returns the identical generic
message whether the queried email belongs to an account or to none, so
its response reveals nothing about the email's existence. -/
theorem C7_reset_request_no_enumeration (cfg : Settings) (now : Int) (store : Store)
    (email_present email_absent : String)
    (hp : (get_user_by_email email_present store).isSome = true)
    (ha : get_user_by_email email_absent store = none) :
    (request_password_reset cfg now email_present store).fst =
      (request_password_reset cfg now email_absent store).fst := by
  unfold request_password_reset
  rw [ha]
  cases h : get_user_by_email email_present store with
  | none => simp [h] at hp
  | some user => rfl

/-- C7 witness: the fixture store answers the reset request for the
existing email `a@x.com` and the unknown email `nobody@x.com` with the
same message. -/
theorem C7_reset_request_no_enumeration_witness :
    (request_password_reset cfgW 0 "a@x.com" storeW).fst =
      (request_password_reset cfgW 0 "nobody@x.com" storeW).fst :=
  C7_reset_request_no_enumeration cfgW 0 storeW "a@x.com" "nobody@x.com"
    (by decide) (by decide)

/-- C8: deleting an existing role fails `conflict` and leaves the store
untouched whenever some account's `role_ids` lists the role's id; when
no account references it, deletion succeeds and removes exactly that
role. -/
theorem C8_role_delete_referential_integrity (store : Store) (role_id : String)
    (r : RoleDBModel) (hrole : get_role_by_id role_id store = some r) :
    ((∃ u ∈ store.users, role_id ∈ u.role_ids) →
      delete_role role_id store = (.error .conflict, store)) ∧
    ((∀ u ∈ store.users, role_id ∉ u.role_ids) →
      (delete_role role_id store).fst = .ok true ∧
      (delete_role role_id store).snd =
        { store with roles := store.roles.filter (fun r' => !(r'.id == role_id)) }) := by
  constructor
  · rintro ⟨u, hu, hmem⟩
    have hfound : find_users_with_role role_id store = true := by
      unfold find_users_with_role
      rw [List.any_eq_true]
      exact ⟨u, hu, by simpa using hmem⟩
    unfold delete_role
    rw [hrole]
    simp [hfound]
  · intro hnone
    have hfound : find_users_with_role role_id store = false := by
      unfold find_users_with_role
      rw [List.any_eq_false]
      intro u hu
      simpa using hnone u hu
    have hrole' : store.roles.find? (fun r' => r'.id == role_id) = some r := hrole
    have hbeq : (r.id == role_id) = true := by
      have := List.find?_some hrole'
      simpa using this
    have hlt : (store.roles.filter (fun r' => !(r'.id == role_id))).length <
        store.roles.length :=
      List.length_filter_lt_length_iff_exists.mpr
        ⟨r, List.mem_of_find?_eq_some hrole', by simp [hbeq]⟩
    unfold delete_role delete_role_db
    rw [hrole]
    simp [hfound, hlt]

/-- C8 witness: in the RBAC fixture, deleting role `r1` (held by `bob`)
fails `conflict` with the store unchanged, and deleting the
unreferenced role `r2` succeeds and removes it. -/
theorem C8_role_delete_referential_integrity_witness :
    delete_role "r1" storeRbacW = (.error .conflict, storeRbacW) ∧
    (delete_role "r2" storeRbacW).fst = .ok true :=
  ⟨(C8_role_delete_referential_integrity storeRbacW "r1" editorRoleW (by decide)).1
      ⟨bobW, by decide, by decide⟩,
   ((C8_role_delete_referential_integrity storeRbacW "r2" ghostRoleW (by decide)).2
      (by decide)).1⟩

/-- C9 counterexample: the failed-attempt increment on the fixture
account really changes the stored record (the counter moves) yet leaves
`updated_at` exactly as it was — and the lockout writers and the
last-login stamp behave the same way — refuting the claim that every
Account write also sets `updated_at` to the time of the write. -/
theorem C9_counterexample :
    (increment_failed_login_attempts "u1" storeW).users.map (fun u => u.updated_at) =
      storeW.users.map (fun u => u.updated_at) ∧
    (set_user_lockout "u1" 19 storeW).users.map (fun u => u.updated_at) =
      storeW.users.map (fun u => u.updated_at) ∧
    (clear_user_lockout_and_attempts "u1" storeW).users.map (fun u => u.updated_at) =
      storeW.users.map (fun u => u.updated_at) ∧
    (update_last_login_at 5 "u1" storeW).users.map (fun u => u.updated_at) =
      storeW.users.map (fun u => u.updated_at) ∧
    (increment_failed_login_attempts "u1" storeW).users ≠ storeW.users := by
  decide

/-- Every per-id rewrite that leaves `updated_at` alone leaves the
whole store's `updated_at` column unchanged. -/
theorem updated_at_frame (user_id : String) (f : UserDBModel → UserDBModel)
    (store : Store) (hf : ∀ u, (f u).updated_at = u.updated_at) :
    (update_users_matching user_id f store).users.map (fun u => u.updated_at) =
      store.users.map (fun u => u.updated_at) := by
  unfold update_users_matching
  simp only [List.map_map]
  have hfun : ((fun u : UserDBModel => u.updated_at) ∘
      fun u => if u.id == user_id then f u else u) =
      (fun u : UserDBModel => u.updated_at) := by
    funext u
    simp only [Function.comp_apply]
    cases h : u.id == user_id <;> simp [h, hf]
  rw [hfun]

/-- C9 (amended): only `update_user_db` stamps `updated_at` (always to
the server-side `now`); the specialized account writers — the
failed-attempt increment, setting and clearing lockout, and the
last-login stamp — leave `updated_at` untouched. -/
theorem C9_updated_at_stamping :
    (∀ (now : Int) (upd : UserDBModel → UserDBModel) (user_id : String) (store : Store)
        (u : UserDBModel), u ∈ store.users → u.id = user_id →
      ∃ v ∈ (update_user_db now upd user_id store).users,
        v = { upd u with updated_at := now } ∧ v.updated_at = now) ∧
    (∀ (user_id : String) (store : Store),
      (increment_failed_login_attempts user_id store).users.map (fun u => u.updated_at) =
        store.users.map (fun u => u.updated_at)) ∧
    (∀ (user_id : String) (t : Int) (store : Store),
      (set_user_lockout user_id t store).users.map (fun u => u.updated_at) =
        store.users.map (fun u => u.updated_at)) ∧
    (∀ (user_id : String) (store : Store),
      (clear_user_lockout_and_attempts user_id store).users.map (fun u => u.updated_at) =
        store.users.map (fun u => u.updated_at)) ∧
    (∀ (now : Int) (user_id : String) (store : Store),
      (update_last_login_at now user_id store).users.map (fun u => u.updated_at) =
        store.users.map (fun u => u.updated_at)) := by
  refine ⟨?_, ?_, ?_, ?_, ?_⟩
  · intro now upd user_id store u hu hid
    refine ⟨{ upd u with updated_at := now }, ?_, rfl, rfl⟩
    unfold update_user_db update_users_matching
    have hmem := List.mem_map_of_mem
      (fun v => if v.id == user_id then { upd v with updated_at := now } else v) hu
    simpa [hid] using hmem
  · intro user_id store
    unfold increment_failed_login_attempts
    exact updated_at_frame user_id _ store (fun u => rfl)
  · intro user_id t store
    unfold set_user_lockout
    exact updated_at_frame user_id _ store (fun u => rfl)
  · intro user_id store
    unfold clear_user_lockout_and_attempts
    exact updated_at_frame user_id _ store (fun u => rfl)
  · intro now user_id store
    unfold update_last_login_at
    exact updated_at_frame user_id _ store (fun u => rfl)

/-- C9 witness: a generic `update_user_db` write at instant 5 on the
fixture account stores a record whose `updated_at` is 5. -/
theorem C9_updated_at_stamping_witness :
    ∃ v ∈ (update_user_db 5 (fun u => u) "u1" storeW).users,
      v = { aliceW with updated_at := 5 } ∧ v.updated_at = 5 :=
  C9_updated_at_stamping.1 5 (fun u => u) "u1" storeW aliceW (by decide) rfl

end AuthService
